import Mathlib

/-!
Verification of the plant-care assistant front-end ("kham-benh-cho-cay").

The development shallowly embeds the three source files:
* `src/components/MarkdownRenderer.tsx` (the markdown transform, the
  `useApiKey` hook, the `App` workflow component and its step views);
* `src/services/geminiService.ts` (the three request formatters).

Pure functions become Lean functions; the React component state becomes an
explicit `AppState` record with a transition function `appNext` over user
and settlement events, and `Reachable` closes the initial states under
enabled transitions.  Asynchronous model calls are split into a `start`
event (guard check, set `loadingMessage`, clear `error`) and a `settle`
event (apply the outcome, clear `loadingMessage`), matching the
`async` handlers' pre-await and post-await halves.
-/

namespace PlantApp

/-! ## JavaScript string primitives

The handlers and the markdown transform use `String.prototype.trim`,
`startsWith`, `substring` and `split('\n')`.  They are embedded here as
structural recursions over the character list, so that concrete witnesses
evaluate inside the kernel. -/

/-- The characters removed by `String.prototype.trim` (ASCII portion). -/
def isJsWhitespace (c : Char) : Bool :=
  c == ' ' || c == '\t' || c == '\n' || c == '\r' || c == '\x0b' || c == '\x0c'

/-- `s.trim()`: strip leading and trailing whitespace. -/
def jsTrim (s : String) : String :=
  String.mk (((s.toList.dropWhile isJsWhitespace).reverse.dropWhile isJsWhitespace).reverse)

/-- `s.startsWith(pre)`. -/
def jsStartsWith (s pre : String) : Bool :=
  pre.toList.isPrefixOf s.toList

/-- `s.substring(n)`: drop the first `n` characters. -/
def jsSubstring (s : String) (n : Nat) : String :=
  String.mk (s.toList.drop n)

/-- One step of `s.split('\n')`. -/
def splitNewlinesAux : List Char → List (List Char)
  | [] => [[]]
  | '\n' :: rest => [] :: splitNewlinesAux rest
  | c :: rest =>
      match splitNewlinesAux rest with
      | [] => [[c]]
      | l :: ls => (c :: l) :: ls

/-- `s.split('\n')`. -/
def splitNewlines (s : String) : List String :=
  (splitNewlinesAux s.toList).map String.mk

/-! ## Session key store (`useApiKey` in `MarkdownRenderer.tsx`, lines 78-112) -/

/-- `SESSION_TIMEOUT_MS = 30 * 60 * 1000` (30 minutes), epoch milliseconds. -/
def SESSION_TIMEOUT_MS : Int := 30 * 60 * 1000

/-- The JSON record stored under `gemini-api-key` in session storage:
`{ key, timestamp }` with `timestamp` in epoch milliseconds. -/
structure StoredItem where
  key : String
  timestamp : Int
deriving DecidableEq, Repr

/-- The `useApiKey` mount effect: read the stored item; if
`Date.now() - timestamp < SESSION_TIMEOUT_MS` expose the key, otherwise
remove the record.  Returns `(storage after the read, apiKey state)`. -/
def loadApiKey (item : Option StoredItem) (now : Int) :
    Option StoredItem × Option String :=
  match item with
  | none => (none, none)
  | some it =>
      if now - it.timestamp < SESSION_TIMEOUT_MS then (some it, some it.key)
      else (none, none)

/-! ## Request formatters (`geminiService.ts`)

The external model endpoint is abstracted as an oracle
`generateContent : String → GenRequest → String` taking the API key and the
request and returning `response.text`. -/

/-- A content part: an inline image payload or a text part. -/
inductive Part where
  | inlineData (mimeType : String) (data : String)
  | text (s : String)
deriving DecidableEq, Repr

/-- The fixed sampling configuration attached to each call. -/
structure GenConfig where
  temperature : ℚ
  topP : ℚ
  topK : ℕ
deriving DecidableEq, Repr

/-- `contents` is either a parts object or a bare prompt string. -/
inductive GenContents where
  | parts (ps : List Part)
  | text (s : String)
deriving DecidableEq, Repr

/-- The request handed to `ai.models.generateContent`. -/
structure GenRequest where
  model : String
  contents : GenContents
  config : GenConfig
deriving DecidableEq, Repr

/-- The fixed identification prompt (`identifyPlant`, line 7). -/
def identifyPrompt : String :=
  "Dựa vào (các) hình ảnh được cung cấp, hãy nhận dạng loại cây này. Chỉ trả về tên phổ biến nhất của cây bằng tiếng Việt. Nếu không chắc chắn, hãy trả lời là \"Không xác định\"."

/-- The request built by `identifyPlant`: images then the prompt text,
model `gemini-2.5-flash`, temperature 0.2, topP 0.9, topK 32. -/
def identifyRequest (imageParts : List Part) : GenRequest :=
  { model := "gemini-2.5-flash"
  , contents := .parts (imageParts ++ [.text identifyPrompt])
  , config := { temperature := 2/10, topP := 9/10, topK := 32 } }

/-- `identifyPlant(apiKey, imageParts)`: build the request, call the model,
and return `response.text.trim()`. -/
def identifyPlant (generateContent : String → GenRequest → String)
    (apiKey : String) (imageParts : List Part) : String :=
  jsTrim (generateContent apiKey (identifyRequest imageParts))

/-- The health-analysis prompt template (`analyzePlantHealth`, lines 26-39),
with the two `${plantName}` interpolations. -/
def analyzePrompt (plantName : String) : String :=
  "\nBạn là một chuyên gia về thực vật học và bệnh lý cây trồng. Phân tích (các) hình ảnh của một cây \"" ++ plantName ++ "\".\n\nDựa trên hình ảnh, hãy cung cấp một phân tích toàn diện bằng tiếng Việt, sử dụng định dạng Markdown. Bao gồm các mục sau:\n\n### 1. Tình trạng sức khỏe (Health Status)\n*   Đánh giá sức khỏe tổng thể. Tìm kiếm bất kỳ dấu hiệu bệnh, sâu hại, héo úa, đổi màu hoặc thiếu hụt dinh dưỡng trên lá, thân và rễ có thể nhìn thấy. Hãy mô tả thật cụ thể.\n\n### 2. Giải pháp cải thiện (Improvement Solutions)\n*   Dựa trên đánh giá sức khỏe, cung cấp các bước hành động cụ thể để giải quyết bất kỳ vấn đề nào được xác định. Nếu cây khỏe mạnh, hãy đề xuất các cách để duy trì tình trạng đó.\n\n### 3. Hướng dẫn chăm sóc chung (General Care Guide)\n*   Cung cấp hướng dẫn chăm sóc cơ bản cho cây \"" ++ plantName ++ "\", bao gồm các yếu tố chính như: Ánh sáng, Nước, Đất, Phân bón, và Độ ẩm.\n"

/-- The request built by `analyzePlantHealth`: images then the prompt text,
model `gemini-2.5-flash`, temperature 0.4, topP 0.9, topK 32. -/
def analyzeRequest (imageParts : List Part) (plantName : String) : GenRequest :=
  { model := "gemini-2.5-flash"
  , contents := .parts (imageParts ++ [.text (analyzePrompt plantName)])
  , config := { temperature := 4/10, topP := 9/10, topK := 32 } }

/-- `analyzePlantHealth(apiKey, imageParts, plantName)`: build the request,
call the model, and return `response.text` unmodified. -/
def analyzePlantHealth (generateContent : String → GenRequest → String)
    (apiKey : String) (imageParts : List Part) (plantName : String) : String :=
  generateContent apiKey (analyzeRequest imageParts plantName)

/-- The goal-advice prompt template (`getGoalOrientedAdvice`, lines 58-65). -/
def goalPrompt (plantName healthAnalysis userGoal : String) : String :=
  "\nBạn là một chuyên gia cây trồng. Dựa vào bối cảnh sau:\n- **Loại cây:** " ++ plantName ++ "\n- **Phân tích sức khỏe trước đó:** " ++ healthAnalysis ++ "\n- **Mục tiêu của người dùng:** \"" ++ userGoal ++ "\"\n\nHãy cung cấp lời khuyên chuyên sâu, cụ thể và có thể hành động để giúp người dùng đạt được mục tiêu của họ. Tập trung vào các kỹ thuật hoặc điều chỉnh nâng cao ngoài phần chăm sóc cơ bản đã được đề cập. Trình bày câu trả lời của bạn bằng tiếng Việt, sử dụng định dạng Markdown. Đừng lặp lại các thông tin đã có trong phần phân tích sức khỏe trước đó.\n"

/-- The request built by `getGoalOrientedAdvice`: a bare prompt string,
model `gemini-2.5-flash`, temperature 0.5, topP 0.9, topK 40. -/
def goalRequest (plantName healthAnalysis userGoal : String) : GenRequest :=
  { model := "gemini-2.5-flash"
  , contents := .text (goalPrompt plantName healthAnalysis userGoal)
  , config := { temperature := 5/10, topP := 9/10, topK := 40 } }

/-- `getGoalOrientedAdvice(apiKey, plantName, healthAnalysis, userGoal)`:
build the request, call the model, and return `response.text` unmodified. -/
def getGoalOrientedAdvice (generateContent : String → GenRequest → String)
    (apiKey : String) (plantName healthAnalysis userGoal : String) : String :=
  generateContent apiKey (goalRequest plantName healthAnalysis userGoal)

/-! ## Markdown transform (`MarkdownRenderer`, lines 8-65)

The component is a pure function from the input string to an ordered list
of typed blocks; CSS classes and React keys are presentational and omitted. -/

/-- A rendered block: headings, a list item, a list wrapper, a paragraph,
or the `null` produced for blank lines (which React drops from output but
which the loop still pushes into `elements`). -/
inductive MdElem where
  | h1 (html : String)
  | h2 (html : String)
  | h3 (html : String)
  | li (html : String)
  | ul (children : List MdElem)
  | p (html : String)
  | nullElem
deriving Repr

/-- Find the earliest `**` in the character list; on success return the
characters before it and the characters after it. -/
def splitAtStars : List Char → Option (List Char × List Char)
  | [] => none
  | '*' :: '*' :: rest => some ([], rest)
  | c :: rest => (splitAtStars rest).map fun p => (c :: p.1, p.2)

/-- The global lazy replacement `/\*\*(.*?)\*\*/g → <strong>$1</strong>`,
written with a fuel argument so that the recursion is structural (each
recursive call consumes at least one character, so `length` fuel suffices). -/
def boldAux : Nat → List Char → List Char
  | 0, l => l
  | _ + 1, [] => []
  | fuel + 1, '*' :: '*' :: rest =>
      match splitAtStars rest with
      | some (inner, rest2) =>
          "<strong>".toList ++ inner ++ "</strong>".toList ++ boldAux fuel rest2
      | none => '*' :: '*' :: boldAux fuel rest
  | fuel + 1, c :: rest => c :: boldAux fuel rest

/-- `line.replace(/\*\*(.*?)\*\*/g, '<strong>$1</strong>')`. -/
def boldReplace (line : String) : String :=
  String.mk (boldAux line.length line.toList)

/-- `renderLine` (lines 9-35): classify one line, after bold substitution. -/
def renderLine (line : String) : MdElem :=
  let boldedLine := boldReplace line
  if jsStartsWith line "### " then .h3 (jsSubstring boldedLine 4)
  else if jsStartsWith line "## " then .h2 (jsSubstring boldedLine 3)
  else if jsStartsWith line "# " then .h1 (jsSubstring boldedLine 2)
  else if jsStartsWith line "* " then .li (jsSubstring boldedLine 2)
  else if jsTrim line = "" then .nullElem
  else .p boldedLine

/-- The grouping loop of the component (lines 37-62), as a recursion over
the remaining lines carrying the `elements` accumulator and the `inList`
flag.  A continued list item is appended to the last element when that
element is a `ul` (the `lastElement.type === 'ul'` guard); otherwise the
line is dropped and `inList` is left unchanged, exactly as in the source. -/
def mdLoop : List String → List MdElem → Bool → List MdElem
  | [], elements, _ => elements
  | line :: rest, elements, inList =>
      let isListItem := jsStartsWith line "* "
      if isListItem && !inList then
        mdLoop rest (elements ++ [.ul [renderLine line]]) true
      else if isListItem && inList then
        match elements.getLast? with
        | some (.ul children) =>
            mdLoop rest (elements.dropLast ++ [.ul (children ++ [renderLine line])]) true
        | _ => mdLoop rest elements inList
      else
        mdLoop rest (elements ++ [renderLine line]) false

/-- `MarkdownRenderer`: split `content` on newlines and run the grouping
loop with an empty accumulator and `inList = false`. -/
def markdownElements (content : String) : List MdElem :=
  mdLoop (splitNewlines content) [] false

/-! ## Workflow state machine (`App` in `MarkdownRenderer.tsx`, lines 76-294)

React component state becomes the `AppState` record.  The asynchronous
handlers are split into a start event (the half before `await`: guard
check, `setLoadingMessage`, `setError(null)`) and a settle event (the
continuation: apply the result or the `catch`, then the `finally`
clearing `loadingMessage`).  `enabledB` records which events the rendered
view (`renderContent`, lines 238-259) can emit in a given state. -/

/-- The `Step` union (line 76). -/
inductive Step where
  | API_KEY | UPLOAD | CONFIRM | DIAGNOSE | GOAL
deriving DecidableEq, Repr

/-- A selected file: `type` is the MIME type checked by
`handleImageChange`, `data` stands for its content / data URL. -/
structure ImgFile where
  type : String
  data : String
deriving DecidableEq, Repr

/-- Which of the three model calls is in flight. -/
inductive PendingCall where
  | identify | analyze | goal
deriving DecidableEq, Repr

/-- Settlement of a model-call promise: the returned text, or a rejection
(the `catch` branch). -/
inductive Outcome where
  | ok (text : String)
  | err
deriving DecidableEq, Repr

/-- The `App` component state (lines 116-128), plus the in-flight call. -/
structure AppState where
  step : Step
  apiKey : Option String
  imageFiles : List (Option ImgFile)
  imageDataUrls : List (Option String)
  plantName : String
  healthAnalysis : String
  goalAnalysis : String
  userGoal : String
  loadingMessage : Option String
  error : Option String
  pending : Option PendingCall
deriving DecidableEq, Repr

/-- The events a rendered view or a settling promise can produce. -/
inductive Event where
  | submitKey (raw : String)
  | selectImage (idx : Nat) (f : Option ImgFile)
  | startIdentify
  | editPlantName (v : String)
  | startAnalyze
  | nextDiagnose
  | editGoal (v : String)
  | startGoal
  | settle (r : Outcome)
  | reset
  | retryError
deriving DecidableEq, Repr

/-- `'Vui lòng chỉ chọn tệp hình ảnh.'` (line 154). -/
def msgNotImage : String := "Vui lòng chỉ chọn tệp hình ảnh."

/-- `'Vui lòng tải lên ít nhất một hình ảnh.'` (line 173). -/
def msgNoImage : String := "Vui lòng tải lên ít nhất một hình ảnh."

/-- `'Đang nhận dạng cây của bạn...'` (line 176). -/
def msgLoadingIdentify : String := "Đang nhận dạng cây của bạn..."

/-- `'Không thể nhận dạng cây. Vui lòng thử lại với hình ảnh khác.'` (line 189). -/
def msgIdentifyFail : String := "Không thể nhận dạng cây. Vui lòng thử lại với hình ảnh khác."

/-- `'Tên cây không được để trống.'` (line 197). -/
def msgEmptyName : String := "Tên cây không được để trống."

/-- `'AI đang phân tích sức khỏe cây trồng...'` (line 200). -/
def msgLoadingAnalyze : String := "AI đang phân tích sức khỏe cây trồng..."

/-- `'Phân tích không thành công. Vui lòng thử lại.'` (line 213). -/
def msgAnalyzeFail : String := "Phân tích không thành công. Vui lòng thử lại."

/-- `'Vui lòng nhập mục tiêu chăm sóc.'` (line 221). -/
def msgEmptyGoal : String := "Vui lòng nhập mục tiêu chăm sóc."

/-- `'Đang tạo lời khuyên chuyên sâu...'` (line 224). -/
def msgLoadingGoal : String := "Đang tạo lời khuyên chuyên sâu..."

/-- `'Không thể tạo lời khuyên. Vui lòng thử lại.'` (line 231). -/
def msgGoalFail : String := "Không thể tạo lời khuyên. Vui lòng thử lại."

/-- `renderContent` shows the step view (with its buttons and inputs) only
when neither the loading overlay nor the error view is displayed. -/
def interactive (s : AppState) : Bool :=
  s.loadingMessage.isNone && s.error.isNone

/-- Which events the UI can emit in state `s`: each step view only renders
at its step (`renderContent`, lines 245-258), the error-recovery button
only on the error view (line 243), and a settlement only while its call is
in flight. -/
def enabledB (s : AppState) : Event → Bool
  | .submitKey _ => interactive s && s.step == .API_KEY
  | .selectImage idx _ => interactive s && s.step == .UPLOAD && decide (idx < 2)
  | .startIdentify => interactive s && s.step == .UPLOAD
  | .editPlantName _ => interactive s && s.step == .CONFIRM
  | .startAnalyze => interactive s && s.step == .CONFIRM
  | .nextDiagnose => interactive s && s.step == .DIAGNOSE
  | .editGoal _ => interactive s && s.step == .GOAL
  | .startGoal => interactive s && s.step == .GOAL
  | .settle _ => s.pending.isSome
  | .reset => interactive s && s.step == .GOAL
  | .retryError => s.loadingMessage.isNone && s.error.isSome

/-- The transition function.  Each case transcribes the corresponding
handler of `App`:
* `submitKey` — `ApiKeyInput.handleSubmit` (lines 301-306) composed with
  `saveApiKey` (lines 100-109) and the `[apiKey]` effect (lines 130-136);
* `selectImage` — `handleImageChange` (lines 150-169), with the
  asynchronous `FileReader` preview store folded into the same event;
* `startIdentify` / `startAnalyze` / `startGoal` — the guard and
  loading half of `handleIdentification` (171-177), `handleAnalysis`
  (195-201), `handleGoalAdvice` (219-225);
* `settle` — the `try`/`catch`/`finally` continuation of whichever call
  is in flight (success assignment and step advance, or the catch error,
  then `setLoadingMessage(null)`);
* `nextDiagnose` — the `DiagnoseStep` next button (line 253);
* `editPlantName` / `editGoal` — the controlled inputs;
* `reset` — `resetWorkflow` (lines 138-148);
* `retryError` — the `ErrorView` button `setError(null);
  setCurrentStep('UPLOAD')` (line 243). -/
def appNext (s : AppState) : Event → AppState
  | .submitKey raw =>
      if jsTrim raw ≠ "" then
        { s with apiKey := some (jsTrim raw), step := .UPLOAD }
      else s
  | .selectImage idx f =>
      match f with
      | none => s
      | some file =>
          if !(jsStartsWith file.type "image/") then
            { s with error := some msgNotImage }
          else
            { s with imageFiles := s.imageFiles.set idx (some file)
                   , imageDataUrls := s.imageDataUrls.set idx (some file.data) }
  | .startIdentify =>
      if !(s.imageFiles.any Option.isSome) then
        { s with error := some msgNoImage }
      else
        { s with loadingMessage := some msgLoadingIdentify, error := none
               , pending := some .identify }
  | .editPlantName v => { s with plantName := v }
  | .startAnalyze =>
      if jsTrim s.plantName = "" then
        { s with error := some msgEmptyName }
      else
        { s with loadingMessage := some msgLoadingAnalyze, error := none
               , pending := some .analyze }
  | .nextDiagnose => { s with step := .GOAL }
  | .editGoal v => { s with userGoal := v }
  | .startGoal =>
      if jsTrim s.userGoal = "" then
        { s with error := some msgEmptyGoal }
      else
        { s with loadingMessage := some msgLoadingGoal, error := none
               , pending := some .goal }
  | .settle r =>
      match s.pending with
      | none => s
      | some .identify =>
          match r with
          | .ok text =>
              { s with plantName := text, step := .CONFIRM
                     , loadingMessage := none, pending := none }
          | .err =>
              { s with error := some msgIdentifyFail
                     , loadingMessage := none, pending := none }
      | some .analyze =>
          match r with
          | .ok text =>
              { s with healthAnalysis := text, step := .DIAGNOSE
                     , loadingMessage := none, pending := none }
          | .err =>
              { s with error := some msgAnalyzeFail
                     , loadingMessage := none, pending := none }
      | some .goal =>
          match r with
          | .ok text =>
              { s with goalAnalysis := text
                     , loadingMessage := none, pending := none }
          | .err =>
              { s with error := some msgGoalFail
                     , loadingMessage := none, pending := none }
  | .reset =>
      { s with imageFiles := [none, none], imageDataUrls := [none, none]
             , plantName := "", healthAnalysis := "", goalAnalysis := ""
             , userGoal := "", loadingMessage := none, error := none
             , step := .UPLOAD }
  | .retryError => { s with error := none, step := .UPLOAD }

/-- The state after mount: the `useState` initial values (lines 117-128)
with the two mount effects applied — `useApiKey` delivered `k` from the
session-storage read (`loadApiKey`), and the `[apiKey]` effect (lines
130-136) set the step to `API_KEY` or `UPLOAD` accordingly. -/
def initState (k : Option String) : AppState :=
  { step := if k.isSome then .UPLOAD else .API_KEY
  , apiKey := k
  , imageFiles := [none, none]
  , imageDataUrls := [none, none]
  , plantName := ""
  , healthAnalysis := ""
  , goalAnalysis := ""
  , userGoal := ""
  , loadingMessage := none
  , error := none
  , pending := none }

/-- Reachable states: an initial state, closed under enabled events. -/
inductive Reachable : AppState → Prop where
  | init (k : Option String) : Reachable (initState k)
  | next {s : AppState} (e : Event) (h : Reachable s)
      (he : enabledB s e = true) : Reachable (appNext s e)

/-- The whole of `handleIdentification` (lines 171-193): the guard and
loading half followed by the settlement of the `identifyPlant` promise. -/
def handleIdentification (s : AppState) (r : Outcome) : AppState :=
  appNext (appNext s .startIdentify) (.settle r)

/-- The whole of `handleAnalysis` (lines 195-217). -/
def handleAnalysis (s : AppState) (r : Outcome) : AppState :=
  appNext (appNext s .startAnalyze) (.settle r)

/-- The whole of `handleGoalAdvice` (lines 219-235). -/
def handleGoalAdvice (s : AppState) (r : Outcome) : AppState :=
  appNext (appNext s .startGoal) (.settle r)

/-! ## Credential submission with storage (`ApiKeyInput` + `saveApiKey`) -/

/-- `saveApiKey` (lines 100-109): if `key` is truthy, write
`{key, timestamp: Date.now()}` to session storage and set the `apiKey`
state (whereupon the `[apiKey]` effect moves the step to `UPLOAD`).
Returns the component state and the storage after the call. -/
def saveApiKey (s : AppState) (stored : Option StoredItem) (now : Int)
    (key : String) : AppState × Option StoredItem :=
  if key ≠ "" then
    ({ s with apiKey := some key, step := .UPLOAD }, some ⟨key, now⟩)
  else (s, stored)

/-- `ApiKeyInput.handleSubmit` (lines 301-306): call `onKeySubmit`
(= `saveApiKey`) with the trimmed key only when the trimmed key is
truthy; otherwise do nothing. -/
def handleKeySubmit (s : AppState) (stored : Option StoredItem) (now : Int)
    (raw : String) : AppState × Option StoredItem :=
  if jsTrim raw ≠ "" then saveApiKey s stored now (jsTrim raw)
  else (s, stored)

/-! ## Invariants of the reachable states -/

/-- The inductive invariant: the loading/error mutex, the correspondence
between the in-flight call and the step that issued it, presence of the
credential beyond `API_KEY`, no call in flight without the loading view,
and no error surfaced while on `API_KEY`. -/
def Inv (s : AppState) : Prop :=
  (s.loadingMessage = none ∨ s.error = none)
  ∧ (s.pending = some .identify → s.step = .UPLOAD)
  ∧ (s.pending = some .analyze → s.step = .CONFIRM)
  ∧ (s.pending = some .goal → s.step = .GOAL)
  ∧ (s.step ≠ .API_KEY → s.apiKey ≠ none)
  ∧ (s.loadingMessage = none → s.pending = none)
  ∧ (s.step = .API_KEY → s.error = none)

theorem inv_init (k : Option String) : Inv (initState k) := by
  cases k <;> simp [Inv, initState]

theorem inv_preserved {s : AppState} (e : Event) (hinv : Inv s)
    (he : enabledB s e = true) : Inv (appNext s e) := by
  obtain ⟨h1, h2, h3, h4, h5, h6, h7⟩ := hinv
  cases e with
  | submitKey raw =>
      simp only [enabledB, interactive, Bool.and_eq_true,
        Option.isNone_iff_eq_none, beq_iff_eq] at he
      obtain ⟨⟨hl, herr⟩, hstep⟩ := he
      have hp : s.pending = none := h6 hl
      simp only [appNext]
      split
      · exact ⟨Or.inl hl, by simp [hp], by simp [hp], by simp [hp],
          fun _ => by simp, fun _ => hp, by simp⟩
      · exact ⟨h1, h2, h3, h4, h5, h6, h7⟩
  | selectImage idx f =>
      simp only [enabledB, interactive, Bool.and_eq_true,
        Option.isNone_iff_eq_none, beq_iff_eq] at he
      obtain ⟨⟨⟨hl, herr⟩, hstep⟩, _⟩ := he
      have hp : s.pending = none := h6 hl
      cases f with
      | none => exact ⟨h1, h2, h3, h4, h5, h6, h7⟩
      | some file =>
          simp only [appNext]
          split
          · exact ⟨Or.inl hl, by simp [hp], by simp [hp], by simp [hp],
              fun _ => h5 (by simp [hstep]), fun _ => hp, by simp [hstep]⟩
          · exact ⟨Or.inl hl, by simp [hp], by simp [hp], by simp [hp],
              fun _ => h5 (by simp [hstep]), fun _ => hp, by simp [hstep]⟩
  | startIdentify =>
      simp only [enabledB, interactive, Bool.and_eq_true,
        Option.isNone_iff_eq_none, beq_iff_eq] at he
      obtain ⟨⟨hl, herr⟩, hstep⟩ := he
      have hp : s.pending = none := h6 hl
      simp only [appNext]
      split
      · exact ⟨Or.inl hl, by simp [hp], by simp [hp], by simp [hp],
          fun _ => h5 (by simp [hstep]), fun _ => hp, by simp [hstep]⟩
      · exact ⟨Or.inr rfl, fun _ => hstep, by simp, by simp,
          fun _ => h5 (by simp [hstep]), by simp, by simp [hstep]⟩
  | editPlantName v =>
      exact ⟨h1, h2, h3, h4, h5, h6, h7⟩
  | startAnalyze =>
      simp only [enabledB, interactive, Bool.and_eq_true,
        Option.isNone_iff_eq_none, beq_iff_eq] at he
      obtain ⟨⟨hl, herr⟩, hstep⟩ := he
      have hp : s.pending = none := h6 hl
      simp only [appNext]
      split
      · exact ⟨Or.inl hl, by simp [hp], by simp [hp], by simp [hp],
          fun _ => h5 (by simp [hstep]), fun _ => hp, by simp [hstep]⟩
      · exact ⟨Or.inr rfl, by simp, fun _ => hstep, by simp,
          fun _ => h5 (by simp [hstep]), by simp, by simp [hstep]⟩
  | nextDiagnose =>
      simp only [enabledB, interactive, Bool.and_eq_true,
        Option.isNone_iff_eq_none, beq_iff_eq] at he
      obtain ⟨⟨hl, herr⟩, hstep⟩ := he
      have hp : s.pending = none := h6 hl
      simp only [appNext]
      exact ⟨Or.inl hl, by simp [hp], by simp [hp], by simp [hp],
        fun _ => h5 (by simp [hstep]), fun _ => hp, by simp⟩
  | editGoal v =>
      exact ⟨h1, h2, h3, h4, h5, h6, h7⟩
  | startGoal =>
      simp only [enabledB, interactive, Bool.and_eq_true,
        Option.isNone_iff_eq_none, beq_iff_eq] at he
      obtain ⟨⟨hl, herr⟩, hstep⟩ := he
      have hp : s.pending = none := h6 hl
      simp only [appNext]
      split
      · exact ⟨Or.inl hl, by simp [hp], by simp [hp], by simp [hp],
          fun _ => h5 (by simp [hstep]), fun _ => hp, by simp [hstep]⟩
      · exact ⟨Or.inr rfl, by simp, by simp, fun _ => hstep,
          fun _ => h5 (by simp [hstep]), by simp, by simp [hstep]⟩
  | settle r =>
      simp only [enabledB, Option.isSome_iff_exists] at he
      obtain ⟨c, hc⟩ := he
      simp only [appNext, hc]
      cases c with
      | identify =>
          have hstep : s.step = .UPLOAD := h2 hc
          cases r with
          | ok text =>
              exact ⟨Or.inl rfl, by simp, by simp, by simp,
                fun _ => h5 (by simp [hstep]), fun _ => rfl, by simp⟩
          | err =>
              exact ⟨Or.inl rfl, by simp, by simp, by simp,
                fun _ => h5 (by simp [hstep]), fun _ => rfl, by simp [hstep]⟩
      | analyze =>
          have hstep : s.step = .CONFIRM := h3 hc
          cases r with
          | ok text =>
              exact ⟨Or.inl rfl, by simp, by simp, by simp,
                fun _ => h5 (by simp [hstep]), fun _ => rfl, by simp⟩
          | err =>
              exact ⟨Or.inl rfl, by simp, by simp, by simp,
                fun _ => h5 (by simp [hstep]), fun _ => rfl, by simp [hstep]⟩
      | goal =>
          have hstep : s.step = .GOAL := h4 hc
          cases r with
          | ok text =>
              exact ⟨Or.inl rfl, by simp, by simp, by simp,
                fun _ => h5 (by simp [hstep]), fun _ => rfl, by simp [hstep]⟩
          | err =>
              exact ⟨Or.inl rfl, by simp, by simp, by simp,
                fun _ => h5 (by simp [hstep]), fun _ => rfl, by simp [hstep]⟩
  | reset =>
      simp only [enabledB, interactive, Bool.and_eq_true,
        Option.isNone_iff_eq_none, beq_iff_eq] at he
      obtain ⟨⟨hl, herr⟩, hstep⟩ := he
      have hp : s.pending = none := h6 hl
      simp only [appNext]
      exact ⟨Or.inl rfl, by simp [hp], by simp [hp], by simp [hp],
        fun _ => h5 (by simp [hstep]), fun _ => hp, by simp⟩
  | retryError =>
      simp only [enabledB, Bool.and_eq_true, Option.isNone_iff_eq_none,
        Option.isSome_iff_exists] at he
      obtain ⟨hl, m, hm⟩ := he
      have hp : s.pending = none := h6 hl
      have hstepne : s.step ≠ .API_KEY := fun h =>
        by rw [h7 h] at hm; exact Option.noConfusion hm
      simp only [appNext]
      exact ⟨Or.inr rfl, by simp [hp], by simp [hp], by simp [hp],
        fun _ => h5 hstepne, fun _ => hp, by simp⟩

/-- Every reachable state satisfies the inductive invariant. -/
theorem inv_of_reachable {s : AppState} (h : Reachable s) : Inv s := by
  induction h with
  | init k => exact inv_init k
  | next e _ he ih => exact inv_preserved e ih he

/-! ## Claim theorems -/

/-- Position of a step in the linear order
API_KEY < UPLOAD < CONFIRM < DIAGNOSE < GOAL. -/
def stepIdx : Step → Nat
  | .API_KEY => 0
  | .UPLOAD => 1
  | .CONFIRM => 2
  | .DIAGNOSE => 3
  | .GOAL => 4

/-- C1: for each of the three external calls, when the guard passes and the
call rejects, the step after the full handler equals the step before it and
the error field holds a non-empty message; and whatever the outcome,
`loadingMessage` is cleared once the call settles. -/
theorem c1_call_failure_preserves_step :
    ∀ (s : AppState) (r : Outcome),
      (s.imageFiles.any Option.isSome = true →
        (handleIdentification s .err).step = s.step
        ∧ (∃ m, (handleIdentification s .err).error = some m ∧ m ≠ "")
        ∧ (handleIdentification s r).loadingMessage = none)
      ∧ (jsTrim s.plantName ≠ "" →
        (handleAnalysis s .err).step = s.step
        ∧ (∃ m, (handleAnalysis s .err).error = some m ∧ m ≠ "")
        ∧ (handleAnalysis s r).loadingMessage = none)
      ∧ (jsTrim s.userGoal ≠ "" →
        (handleGoalAdvice s .err).step = s.step
        ∧ (∃ m, (handleGoalAdvice s .err).error = some m ∧ m ≠ "")
        ∧ (handleGoalAdvice s r).loadingMessage = none) := by
  intro s r
  refine ⟨fun h => ⟨?_, ⟨msgIdentifyFail, ?_, by decide⟩, ?_⟩,
          fun h => ⟨?_, ⟨msgAnalyzeFail, ?_, by decide⟩, ?_⟩,
          fun h => ⟨?_, ⟨msgGoalFail, ?_, by decide⟩, ?_⟩⟩
  · simp [handleIdentification, appNext, h]
  · simp [handleIdentification, appNext, h]
  · cases r <;> simp [handleIdentification, appNext, h]
  · simp [handleAnalysis, appNext, h]
  · simp [handleAnalysis, appNext, h]
  · cases r <;> simp [handleAnalysis, appNext, h]
  · simp [handleGoalAdvice, appNext, h]
  · simp [handleGoalAdvice, appNext, h]
  · cases r <;> simp [handleGoalAdvice, appNext, h]

/-- A state past every guard: one image selected, a plant name and a goal. -/
def c1WitnessState : AppState :=
  { initState (some "k") with
    imageFiles := [some ⟨"image/png", "img"⟩, none]
  , plantName := "Hoa hồng", userGoal := "ra hoa nhiều hơn" }

/-- C1 witness: the guard hypothesis and the conclusion at a concrete state. -/
theorem c1_witness :
    c1WitnessState.imageFiles.any Option.isSome = true
    ∧ ((handleIdentification c1WitnessState .err).step = c1WitnessState.step
      ∧ (∃ m, (handleIdentification c1WitnessState .err).error = some m ∧ m ≠ "")
      ∧ (handleIdentification c1WitnessState .err).loadingMessage = none) :=
  ⟨by decide, (c1_call_failure_preserves_step c1WitnessState .err).1 (by decide)⟩

/-- C2: loading a stored record at time `now` returns the stored key and
keeps the record when `now - timestamp < 30` minutes, and otherwise returns
none and removes the record from storage. -/
theorem c2_load_respects_expiry :
    ∀ (it : StoredItem) (now : Int),
      (now - it.timestamp < SESSION_TIMEOUT_MS →
        loadApiKey (some it) now = (some it, some it.key))
      ∧ (¬ now - it.timestamp < SESSION_TIMEOUT_MS →
        loadApiKey (some it) now = (none, none)) := by
  intro it now
  constructor <;> intro h <;> simp [loadApiKey, h]

/-- C2 witness: a fresh record is returned, a 31-minute-old one is purged. -/
theorem c2_witness :
    ((1000 : Int) - (0 : Int) < SESSION_TIMEOUT_MS
      ∧ loadApiKey (some ⟨"X", 0⟩) 1000 = (some ⟨"X", 0⟩, some "X"))
    ∧ (¬ ((31 * 60 * 1000 : Int) - (0 : Int) < SESSION_TIMEOUT_MS)
      ∧ loadApiKey (some ⟨"X", 0⟩) (31 * 60 * 1000) = (none, none)) :=
  ⟨⟨by decide, (c2_load_respects_expiry ⟨"X", 0⟩ 1000).1 (by decide)⟩,
   ⟨by decide, (c2_load_respects_expiry ⟨"X", 0⟩ (31 * 60 * 1000)).2 (by decide)⟩⟩

/-- A reachable state sitting at CONFIRM with the error view showing:
upload an image, identify successfully, then fail the health analysis. -/
def c3Trace : AppState :=
  appNext (appNext (appNext (appNext (appNext (initState (some "k"))
    (.selectImage 0 (some ⟨"image/png", "img"⟩))) .startIdentify)
    (.settle (.ok "Hoa hồng"))) .startAnalyze) (.settle .err)

/-- C3 counterexample: the claim that the step never moves backward except
via the explicit reset action is false — the error-recovery button, a
distinct event from `reset`, is enabled in the reachable state `c3Trace`
(step CONFIRM, error set) and moves the step back to UPLOAD. -/
theorem c3_counterexample :
    Reachable c3Trace
    ∧ enabledB c3Trace Event.retryError = true
    ∧ Event.retryError ≠ Event.reset
    ∧ stepIdx (appNext c3Trace Event.retryError).step < stepIdx c3Trace.step := by
  refine ⟨?_, by decide, by decide, by decide⟩
  exact Reachable.next (.settle .err)
    (Reachable.next .startAnalyze
      (Reachable.next (.settle (.ok "Hoa hồng"))
        (Reachable.next .startIdentify
          (Reachable.next (.selectImage 0 (some ⟨"image/png", "img"⟩))
            (Reachable.init (some "k")) rfl) rfl) rfl) rfl) rfl

/-- C3 (amended): in every reachable state, no enabled event other than the
explicit reset action and the error-recovery action moves the step backward
in the order API_KEY < UPLOAD < CONFIRM < DIAGNOSE < GOAL. -/
theorem c3_step_monotone :
    ∀ (s : AppState) (e : Event), Reachable s → enabledB s e = true →
      e ≠ .reset → e ≠ .retryError →
      stepIdx s.step ≤ stepIdx (appNext s e).step := by
  intro s e hr he hne hnr
  obtain ⟨h1, h2, h3, h4, h5, h6, h7⟩ := inv_of_reachable hr
  cases e with
  | submitKey raw =>
      simp only [enabledB, interactive, Bool.and_eq_true,
        Option.isNone_iff_eq_none, beq_iff_eq] at he
      obtain ⟨⟨hl, herr⟩, hstep⟩ := he
      simp only [appNext]
      split
      · simp [hstep, stepIdx]
      · exact le_refl _
  | selectImage idx f =>
      cases f with
      | none => exact le_refl _
      | some file =>
          simp only [appNext]
          split <;> exact le_refl _
  | startIdentify =>
      simp only [appNext]
      split <;> exact le_refl _
  | editPlantName v => exact le_refl _
  | startAnalyze =>
      simp only [appNext]
      split <;> exact le_refl _
  | nextDiagnose =>
      simp only [enabledB, interactive, Bool.and_eq_true,
        Option.isNone_iff_eq_none, beq_iff_eq] at he
      obtain ⟨⟨hl, herr⟩, hstep⟩ := he
      simp [appNext, hstep, stepIdx]
  | editGoal v => exact le_refl _
  | startGoal =>
      simp only [appNext]
      split <;> exact le_refl _
  | settle r =>
      simp only [enabledB, Option.isSome_iff_exists] at he
      obtain ⟨c, hc⟩ := he
      cases c with
      | identify =>
          have hstep : s.step = .UPLOAD := h2 hc
          cases r with
          | ok text => simp [appNext, hc, hstep, stepIdx]
          | err => simp [appNext, hc]
      | analyze =>
          have hstep : s.step = .CONFIRM := h3 hc
          cases r with
          | ok text => simp [appNext, hc, hstep, stepIdx]
          | err => simp [appNext, hc]
      | goal =>
          cases r with
          | ok text => simp [appNext, hc]
          | err => simp [appNext, hc]
  | reset => exact absurd rfl hne
  | retryError => exact absurd rfl hnr

/-- C3 witness: the amended monotonicity at a concrete reachable state and
enabled event. -/
theorem c3_witness :
    enabledB (initState (some "k")) Event.startIdentify = true
    ∧ Event.startIdentify ≠ Event.reset
    ∧ Event.startIdentify ≠ Event.retryError
    ∧ stepIdx (initState (some "k")).step
        ≤ stepIdx (appNext (initState (some "k")) Event.startIdentify).step :=
  ⟨by decide, by decide, by decide,
    c3_step_monotone (initState (some "k")) Event.startIdentify
      (Reachable.init (some "k")) (by decide) (by decide) (by decide)⟩

/-- C4: wherever the explicit reset action is reachable and enabled, it
returns every data field to its initial empty value and sets the step to
UPLOAD; the API_KEY alternative of the claim is vacuous because a valid
credential is always present when reset is available (`s.apiKey ≠ none`). -/
theorem c4_reset_restores_initial :
    ∀ s : AppState, Reachable s → enabledB s .reset = true →
      (appNext s .reset).imageFiles = [none, none]
      ∧ (appNext s .reset).imageDataUrls = [none, none]
      ∧ (appNext s .reset).plantName = ""
      ∧ (appNext s .reset).healthAnalysis = ""
      ∧ (appNext s .reset).goalAnalysis = ""
      ∧ (appNext s .reset).userGoal = ""
      ∧ (appNext s .reset).loadingMessage = none
      ∧ (appNext s .reset).error = none
      ∧ (appNext s .reset).step = .UPLOAD
      ∧ s.apiKey ≠ none := by
  intro s hr he
  obtain ⟨h1, h2, h3, h4, h5, h6, h7⟩ := inv_of_reachable hr
  simp only [enabledB, interactive, Bool.and_eq_true,
    Option.isNone_iff_eq_none, beq_iff_eq] at he
  obtain ⟨⟨hl, herr⟩, hstep⟩ := he
  exact ⟨rfl, rfl, rfl, rfl, rfl, rfl, rfl, rfl, rfl, h5 (by simp [hstep])⟩

/-- A reachable GOAL state: identify and analyze succeed, then advance. -/
def c4WitnessState : AppState :=
  appNext (appNext (appNext (appNext (appNext (appNext (initState (some "k"))
    (.selectImage 0 (some ⟨"image/png", "img"⟩))) .startIdentify)
    (.settle (.ok "Hoa hồng"))) .startAnalyze)
    (.settle (.ok "### Báo cáo"))) .nextDiagnose

/-- C4 witness: the reset conclusion at a concrete reachable GOAL state. -/
theorem c4_witness :
    enabledB c4WitnessState Event.reset = true
    ∧ ((appNext c4WitnessState Event.reset).imageFiles = [none, none]
      ∧ (appNext c4WitnessState Event.reset).imageDataUrls = [none, none]
      ∧ (appNext c4WitnessState Event.reset).plantName = ""
      ∧ (appNext c4WitnessState Event.reset).healthAnalysis = ""
      ∧ (appNext c4WitnessState Event.reset).goalAnalysis = ""
      ∧ (appNext c4WitnessState Event.reset).userGoal = ""
      ∧ (appNext c4WitnessState Event.reset).loadingMessage = none
      ∧ (appNext c4WitnessState Event.reset).error = none
      ∧ (appNext c4WitnessState Event.reset).step = .UPLOAD
      ∧ c4WitnessState.apiKey ≠ none) := by
  have hreach : Reachable c4WitnessState :=
    Reachable.next .nextDiagnose
      (Reachable.next (.settle (.ok "### Báo cáo"))
        (Reachable.next .startAnalyze
          (Reachable.next (.settle (.ok "Hoa hồng"))
            (Reachable.next .startIdentify
              (Reachable.next (.selectImage 0 (some ⟨"image/png", "img"⟩))
                (Reachable.init (some "k")) rfl) rfl) rfl) rfl) rfl) rfl
  exact ⟨by decide, c4_reset_restores_initial c4WitnessState hreach (by decide)⟩

/-- C5: the transform of "### Title\n* a\n* b\n" is a heading block
immediately followed by a single list block holding the two items a and b
(plus the null for the trailing blank line), not two one-item lists. -/
theorem c5_markdown_groups_list :
    markdownElements "### Title\n* a\n* b\n" =
      [MdElem.h3 "Title", MdElem.ul [MdElem.li "a", MdElem.li "b"],
        MdElem.nullElem] := rfl

/-- C6: triggering next at UPLOAD with no image, or at CONFIRM with a
blank trimmed plant name, leaves the whole state unchanged except for the
error field, which receives the missing-input message; in particular the
step is unchanged and no call is started (`pending` is untouched). -/
theorem c6_gating_blocks_missing_input :
    ∀ s : AppState,
      (s.imageFiles.any Option.isSome = false →
        appNext s .startIdentify = { s with error := some msgNoImage })
      ∧ (jsTrim s.plantName = "" →
        appNext s .startAnalyze = { s with error := some msgEmptyName }) := by
  intro s
  constructor <;> intro h <;> simp [appNext, h]

/-- C6 witness: both gating failures at the freshly mounted state. -/
theorem c6_witness :
    ((initState (some "k")).imageFiles.any Option.isSome = false
      ∧ appNext (initState (some "k")) Event.startIdentify
          = { initState (some "k") with error := some msgNoImage })
    ∧ (jsTrim (initState (some "k")).plantName = ""
      ∧ appNext (initState (some "k")) Event.startAnalyze
          = { initState (some "k") with error := some msgEmptyName }) :=
  ⟨⟨by decide, (c6_gating_blocks_missing_input (initState (some "k"))).1 (by decide)⟩,
   ⟨rfl, (c6_gating_blocks_missing_input (initState (some "k"))).2 rfl⟩⟩

/-- C7: in every reachable state at most one of `loadingMessage` and
`error` is non-null. -/
theorem c7_loading_error_mutex :
    ∀ s : AppState, Reachable s →
      ¬(s.loadingMessage ≠ none ∧ s.error ≠ none) := by
  intro s h hc
  rcases (inv_of_reachable h).1 with hl | he
  · exact hc.1 hl
  · exact hc.2 he

/-- C7 witness: the mutex at the initial state. -/
theorem c7_witness :
    ¬((initState none).loadingMessage ≠ none ∧ (initState none).error ≠ none) :=
  c7_loading_error_mutex (initState none) (Reachable.init none)

/-- C8: of the three formatters, `identifyPlant` returns the model text
trimmed of surrounding whitespace while `analyzePlantHealth` and
`getGoalOrientedAdvice` return it unmodified — stated over every oracle and
input, and exercised on a response with surrounding whitespace. -/
theorem c8_trim_only_identification :
    (∀ (g : String → GenRequest → String) (k : String) (ps : List Part)
        (plantName healthReport userGoal : String),
      identifyPlant g k ps = jsTrim (g k (identifyRequest ps))
      ∧ analyzePlantHealth g k ps plantName = g k (analyzeRequest ps plantName)
      ∧ getGoalOrientedAdvice g k plantName healthReport userGoal
          = g k (goalRequest plantName healthReport userGoal))
    ∧ identifyPlant (fun _ _ => "  Hoa hồng  ") "k" [] = "Hoa hồng"
    ∧ analyzePlantHealth (fun _ _ => "  báo cáo  ") "k" [] "Hoa" = "  báo cáo  "
    ∧ getGoalOrientedAdvice (fun _ _ => "  lời khuyên  ") "k" "Hoa" "r" "g"
        = "  lời khuyên  " :=
  ⟨fun _ _ _ _ _ _ => ⟨rfl, rfl, rfl⟩, rfl, rfl, rfl⟩

/-- C9 counterexample: the claim that an empty trimmed submission surfaces
an EmptyKeyError is false — submitting a blank credential is silently
ignored: the state is returned unchanged and no error message is set. -/
theorem c9_counterexample :
    handleKeySubmit (initState none) none 1000 "   " = (initState none, none)
    ∧ (handleKeySubmit (initState none) none 1000 "   ").1.error = none :=
  ⟨rfl, rfl⟩

/-- C9 (amended): submitting a credential whose trimmed value is empty is
silently ignored — no error is surfaced, and the stored credential and the
workflow state are unchanged; submitting a non-empty trimmed value stores
the record with `createdAt = now` and makes the credential available,
moving the step to UPLOAD. -/
theorem c9_submit_trims_and_stores :
    ∀ (s : AppState) (stored : Option StoredItem) (now : Int) (raw : String),
      (jsTrim raw = "" → handleKeySubmit s stored now raw = (s, stored))
      ∧ (jsTrim raw ≠ "" →
          handleKeySubmit s stored now raw =
            ({ s with apiKey := some (jsTrim raw), step := .UPLOAD },
              some ⟨jsTrim raw, now⟩)) := by
  intro s stored now raw
  constructor <;> intro h <;> simp [handleKeySubmit, saveApiKey, h]

/-- C9 witness: both branches at concrete inputs. -/
theorem c9_witness :
    (jsTrim "   " = ""
      ∧ handleKeySubmit (initState none) none 1000 "   " = (initState none, none))
    ∧ (jsTrim " abc " ≠ ""
      ∧ handleKeySubmit (initState none) none 1000 " abc " =
          ({ initState none with apiKey := some "abc", step := Step.UPLOAD },
            some ⟨"abc", 1000⟩)) :=
  ⟨⟨rfl, (c9_submit_trims_and_stores (initState none) none 1000 "   ").1 rfl⟩,
   ⟨by decide, (c9_submit_trims_and_stores (initState none) none 1000 " abc ").2 (by decide)⟩⟩

/-- C10: the error-recovery action clears the error and sets the step to
UPLOAD, and every other field — images, previews, plantName, healthReport,
userGoal, goalAdvice, loadingMessage, the credential and the in-flight
marker — keeps its value. -/
theorem c10_error_recovery_frame :
    ∀ s : AppState,
      (appNext s .retryError).error = none
      ∧ (appNext s .retryError).step = .UPLOAD
      ∧ (appNext s .retryError).imageFiles = s.imageFiles
      ∧ (appNext s .retryError).imageDataUrls = s.imageDataUrls
      ∧ (appNext s .retryError).plantName = s.plantName
      ∧ (appNext s .retryError).healthAnalysis = s.healthAnalysis
      ∧ (appNext s .retryError).goalAnalysis = s.goalAnalysis
      ∧ (appNext s .retryError).userGoal = s.userGoal
      ∧ (appNext s .retryError).loadingMessage = s.loadingMessage
      ∧ (appNext s .retryError).apiKey = s.apiKey
      ∧ (appNext s .retryError).pending = s.pending :=
  fun _ => ⟨rfl, rfl, rfl, rfl, rfl, rfl, rfl, rfl, rfl, rfl, rfl⟩

end PlantApp
